import Mathlib

/-!
Shallow embedding of `flask_humanize/__init__.py` (the Flask-Humanize
extension adapter).

Modelling conventions:

* Python dictionaries (the Flask config store and the extension registry)
  are association lists; insertion order is preserved, `setdefault`
  appends at the end when the key is missing.
* A Python value stored in the config may be `None`, so config values are
  `Option String` (`none` = Python `None`).  A key may also be missing
  entirely, which is distinct from being present with value `None`.
* The extension registry maps string keys to Python objects; objects are
  identified by a `Nat` reference (object identity), and a stored value may
  itself be `None`, hence registry values are `Option Nat`.
* A Flask app may lack the `extensions` attribute altogether (old Flask
  versions), hence `App.extensions : Option Registry` (`none` = attribute
  missing, `some []` = present but empty).
* Raised Python exceptions become `Except PyError` results; `PyError`
  distinguishes the exception classes the source can raise.
* Calls into the external `humanize` library are abstracted by a
  `HumanizeLib`: a partial map from attribute names to functions which may
  themselves raise.  `humanize.i18n.activate locale` is modelled by
  returning the locale value handed to it.
-/

/-- Python exception classes reachable from the source under scrutiny.
`exception fname` is the bare `Exception("Humanize module does not contains
function %s")` raised in `__humanize` (line 128); `valueError fname` the
`ValueError("An error occured during execution function %s")` (line 135);
both carry the offending function name, as the format string does. -/
inductive PyError where
  | attributeError : PyError
  | keyError : String → PyError
  | exception : String → PyError
  | valueError : String → PyError
  | unicodeDecodeError : PyError
deriving DecidableEq, Repr

/-- Python runtime values crossing the filter boundary: text strings,
byte strings (as their list of byte values), integers, and `None`. -/
inductive PyVal where
  | str : String → PyVal
  | bytes : List Nat → PyVal
  | int : Int → PyVal
  | pyNone : PyVal
deriving DecidableEq, Repr

/-- Association-list lookup, first match wins (Python dict key lookup). -/
def lookup {α : Type} : List (String × α) → String → Option α
  | [], _ => none
  | (k, v) :: rest, key => if k = key then some v else lookup rest key

/-- Python dict assignment `d[k] = v`: replace in place, else append. -/
def dictSet {α : Type} : List (String × α) → String → α → List (String × α)
  | [], k, v => [(k, v)]
  | (k0, v0) :: rest, k, v =>
    if k0 = k then (k0, v) :: rest else (k0, v0) :: dictSet rest k v

/-- The Flask config store: keys to Python values (`none` = Python None). -/
abbrev Config := List (String × Option String)

/-- The extension registry `app.extensions`: keys to object references,
where a stored value may be Python `None`. -/
abbrev Registry := List (String × Option Nat)

/-- Python `d.get(k)` on the registry: `None` both when the key is missing
and when it maps to `None`. -/
def dictGet (d : Registry) (k : String) : Option Nat :=
  match lookup d k with
  | some v => v
  | none => none

/-- Python `d.setdefault(k, v)`: write `v` only when `k` is missing. -/
def setdefault (cfg : Config) (k : String) (v : Option String) : Config :=
  match lookup cfg k with
  | some _ => cfg
  | none => cfg ++ [(k, v)]

/-- The host Flask application state touched by the extension:
the config store, the (possibly missing) extension registry, the
registered template-filter names, and the number of before-request hooks. -/
structure App where
  config : Config
  extensions : Option Registry
  template_filters : List String
  before_request_funcs : Nat
deriving DecidableEq, Repr

/-- Uppercase a string character by character (Python `str.upper` on the
ASCII identifiers used here). -/
def str_upper (s : String) : String := String.mk (s.data.map Char.toUpper)

/-- `self_name` (source line 36): build the extension config key,
`'HUMANIZE_{}'.format(string.upper())`. -/
def self_name (s : String) : String := "HUMANIZE_" ++ str_upper s

/-- `default_config` (source line 41): the immutable default configuration,
single entry `default_locale -> 'en'`. -/
def default_config : List (String × String) := [("default_locale", "en")]

/-- `app_has_babel` (source line 30): `app.extensions.get('babel') is not
None`.  Accessing `app.extensions` on an app without the attribute raises
`AttributeError`, hence the `Except`. -/
def app_has_babel (app : App) : Except PyError Bool :=
  match app.extensions with
  | none => Except.error PyError.attributeError
  | some exts => Except.ok (dictGet exts "babel").isSome

/-- Source lines 76-77: fold `setdefault` of each `default_config` entry
(under its `self_name` key) into the host config. -/
def init_config (cfg : Config) : Config :=
  default_config.foldl
    (fun c kv => setdefault c (self_name kv.fst) (some kv.snd)) cfg

/-- Source lines 79-82 given a present extension registry: when
`app_has_babel`, read `app.config['BABEL_DEFAULT_LOCALE']` by direct
lookup (`KeyError` when the key is missing, line 80) and, when the value
is not `None`, `setdefault` it under the shim key (lines 81-82). -/
def babel_step (exts : Registry) (cfg : Config) : Except PyError Config :=
  if (dictGet exts "babel").isSome then
    match lookup cfg "BABEL_DEFAULT_LOCALE" with
    | none => Except.error (PyError.keyError "BABEL_DEFAULT_LOCALE")
    | some dl =>
      match dl with
      | none => Except.ok cfg
      | some s => Except.ok (setdefault cfg (self_name "default_locale") (some s))
  else Except.ok cfg

/-- `Humanize.init_app` (source lines 62-89), with `selfRef` the identity
of the adapter instance (Python `self`).  Mirrors the source order:
1. `init_config` (lines 76-77);
2. `app_has_babel` (line 79) — this dereferences `app.extensions`
   *before* the `hasattr` guard of line 87, so on an app without the
   attribute it raises `AttributeError` and the guard is unreachable
   (hence the registry-creation branch does not appear below); the
   config writes preceding a raise are not observable in this embedding,
   whose result is the whole new app or the error;
3. `babel_step` (lines 79-82);
4. register the template filter `humanize` and the before-request hook
   (lines 84-85);
5. `app.extensions['humanize'] = self` (line 89). -/
def init_app (selfRef : Nat) (app : App) : Except PyError App :=
  match app.extensions with
  | none => Except.error PyError.attributeError
  | some exts =>
    match babel_step exts (init_config app.config) with
    | Except.error e => Except.error e
    | Except.ok cfg2 =>
      Except.ok
        { config := cfg2
          template_filters := app.template_filters ++ ["humanize"]
          before_request_funcs := app.before_request_funcs + 1
          extensions := some (dictSet exts "humanize" (some selfRef)) }

/-- Sanity evaluation: registering on a fresh app with an empty registry
installs the default locale, the filter, the hook and the registry entry. -/
theorem init_app_fresh_app_eval : init_app 0
    { config := [], extensions := some [], template_filters := [],
      before_request_funcs := 0 } =
  Except.ok
    { config := [("HUMANIZE_DEFAULT_LOCALE", some "en")],
      extensions := some [("humanize", some 0)],
      template_filters := ["humanize"], before_request_funcs := 1 } := rfl

/-- The adapter instance state: the only mutable field is
`locale_selector_func` (source line 55), a zero-argument callback returning
a locale string or `None`, absent by default. -/
structure Humanize where
  locale_selector_func : Option (Unit → Option String) := none

/-- `Humanize.localeselector` (source lines 96-112): store the callback,
replacing any previous one, and return the same callable unchanged. -/
def Humanize.localeselector (h : Humanize) (f : Unit → Option String) :
    Humanize × (Unit → Option String) :=
  ({ h with locale_selector_func := some f }, f)

/-- `Humanize.default_locale` (source lines 91-94): direct lookup
`current_app.config['HUMANIZE_DEFAULT_LOCALE']`; `KeyError` when the key is
missing, otherwise the stored value (which may be Python `None`). -/
def Humanize.default_locale (cfg : Config) : Except PyError (Option String) :=
  match lookup cfg "HUMANIZE_DEFAULT_LOCALE" with
  | none => Except.error (PyError.keyError "HUMANIZE_DEFAULT_LOCALE")
  | some v => Except.ok v

/-- `Humanize.__set_locale` (source lines 114-122), the before-request
hook.  Resolves the locale — configured default when no selector, the
selector result when not `None`, else the default — and hands it to
`humanize.i18n.activate`; the returned value is the locale activated in the
external library (the activation effect in this embedding). -/
def Humanize.set_locale (h : Humanize) (cfg : Config) :
    Except PyError (Option String) :=
  match h.locale_selector_func with
  | none => Humanize.default_locale cfg
  | some f =>
    match f () with
    | none => Humanize.default_locale cfg
    | some locale => Except.ok (some locale)

/-- Is `b` a UTF-8 continuation byte (`0x80..0xBF`)? -/
def isCont (b : Nat) : Bool := 0x80 ≤ b && b < 0xC0

/-- Strict UTF-8 decoding of a byte list into characters (Python
`bytes.decode('utf-8')`): rejects continuation-only bytes, overlong forms,
surrogates and code points beyond `0x10FFFF`. -/
def utf8DecodeChars : List Nat → Option (List Char)
  | [] => some []
  | b :: rest =>
    if b < 0x80 then
      match utf8DecodeChars rest with
      | some cs => some (Char.ofNat b :: cs)
      | none => none
    else if b < 0xC2 then none
    else if b < 0xE0 then
      match rest with
      | b1 :: rest1 =>
        if isCont b1 then
          match utf8DecodeChars rest1 with
          | some cs => some (Char.ofNat ((b - 0xC0) * 0x40 + (b1 - 0x80)) :: cs)
          | none => none
        else none
      | [] => none
    else if b < 0xF0 then
      match rest with
      | b1 :: b2 :: rest2 =>
        if isCont b1 && isCont b2 then
          let cp := (b - 0xE0) * 0x1000 + (b1 - 0x80) * 0x40 + (b2 - 0x80)
          if cp < 0x800 then none
          else if 0xD800 ≤ cp && cp < 0xE000 then none
          else
            match utf8DecodeChars rest2 with
            | some cs => some (Char.ofNat cp :: cs)
            | none => none
        else none
      | _ => none
    else if b < 0xF5 then
      match rest with
      | b1 :: b2 :: b3 :: rest3 =>
        if isCont b1 && isCont b2 && isCont b3 then
          let cp := (b - 0xF0) * 0x40000 + (b1 - 0x80) * 0x1000 +
            (b2 - 0x80) * 0x40 + (b3 - 0x80)
          if cp < 0x10000 then none
          else if 0x110000 ≤ cp then none
          else
            match utf8DecodeChars rest3 with
            | some cs => some (Char.ofNat cp :: cs)
            | none => none
        else none
      | _ => none
    else none

/-- Python `bytes.decode('utf-8')` as a whole-string operation. -/
def utf8Decode (bs : List Nat) : Option String :=
  (utf8DecodeChars bs).map String.mk

/-- `force_unicode` (source lines 24-27): text values pass through
unchanged; any other value has `.decode('utf-8')` called on it — on a byte
string that is UTF-8 decoding (`UnicodeDecodeError` on invalid bytes), on
anything else the attribute is missing and `AttributeError` is raised. -/
def force_unicode (value : PyVal) : Except PyError PyVal :=
  match value with
  | PyVal.str s => Except.ok (PyVal.str s)
  | PyVal.bytes bs =>
    match utf8Decode bs with
    | some s => Except.ok (PyVal.str s)
    | none => Except.error PyError.unicodeDecodeError
  | _ => Except.error PyError.attributeError

/-- A function of the external `humanize` library: takes the value and the
keyword arguments, returns a result or raises (Python exceptions become
`Except.error`). -/
abbrev HFun := PyVal → List (String × PyVal) → Except PyError PyVal

/-- The external `humanize` library namespace: `getattr(humanize, fname)`
succeeds exactly when `lib fname` is `some`. -/
abbrev HumanizeLib := String → Option HFun

/-- `Humanize.__humanize` (source lines 124-139), the template filter:
resolve `fname` in the library (`Exception` carrying the name when absent,
line 128); call it with the value, forwarding kwargs when any were given
(line 133); any exception from the call is swallowed and replaced by a
`ValueError` carrying the name (lines 134-137); finally `force_unicode` the
result, *outside* the try block, so its own failures propagate unwrapped
(line 139). -/
def Humanize.humanize_filter (lib : HumanizeLib) (value : PyVal)
    (fname : String := "naturaltime") (kwargs : List (String × PyVal) := []) :
    Except PyError PyVal :=
  match lib fname with
  | none => Except.error (PyError.exception fname)
  | some method =>
    match (if kwargs.isEmpty then method value [] else method value kwargs) with
    | Except.error _ => Except.error (PyError.valueError fname)
    | Except.ok result => force_unicode result

/-- Repeated registration: run `init_app` `n` times in sequence,
stopping at the first raised exception. -/
def init_app_n : Nat → Nat → App → Except PyError App
  | 0, _, app => Except.ok app
  | n + 1, ref, app =>
    match init_app ref app with
    | Except.error e => Except.error e
    | Except.ok app' => init_app_n n ref app'

/-! ### Helper lemmas -/

theorem lookup_append_single {α : Type} (cfg : List (String × α))
    (k' k : String) (v : α) (h : k' ≠ k) :
    lookup (cfg ++ [(k', v)]) k = lookup cfg k := by
  induction cfg with
  | nil => simp [lookup, h]
  | cons p rest ih =>
    obtain ⟨k0, v0⟩ := p
    simp only [List.cons_append, lookup]
    split
    · rfl
    · exact ih

theorem setdefault_of_some (cfg : Config) (k : String) (v w : Option String)
    (h : lookup cfg k = some w) : setdefault cfg k v = cfg := by
  simp [setdefault, h]

theorem lookup_setdefault_ne (cfg : Config) (k' k : String) (v : Option String)
    (h : k' ≠ k) : lookup (setdefault cfg k' v) k = lookup cfg k := by
  unfold setdefault
  cases hl : lookup cfg k' with
  | some w => rfl
  | none => exact lookup_append_single cfg k' k v h

theorem self_name_default_locale :
    self_name "default_locale" = "HUMANIZE_DEFAULT_LOCALE" := by decide

theorem init_config_of_some (cfg : Config) (v : Option String)
    (h : lookup cfg "HUMANIZE_DEFAULT_LOCALE" = some v) :
    init_config cfg = cfg := by
  simp only [init_config, default_config, List.foldl, self_name_default_locale]
  exact setdefault_of_some _ _ _ _ h

theorem babel_step_preserves (exts : Registry) (cfg cfg' : Config)
    (v : Option String) (h : lookup cfg "HUMANIZE_DEFAULT_LOCALE" = some v)
    (hb : babel_step exts cfg = Except.ok cfg') :
    lookup cfg' "HUMANIZE_DEFAULT_LOCALE" = some v := by
  unfold babel_step at hb
  split at hb
  · split at hb
    · exact absurd hb (by simp)
    · split at hb
      · cases hb; exact h
      · rw [self_name_default_locale] at hb
        rw [setdefault_of_some _ _ _ _ h] at hb
        cases hb; exact h
  · cases hb; exact h

theorem init_app_preserves_default_locale (ref : Nat) (app app' : App)
    (v : Option String)
    (h : lookup app.config "HUMANIZE_DEFAULT_LOCALE" = some v)
    (hinit : init_app ref app = Except.ok app') :
    lookup app'.config "HUMANIZE_DEFAULT_LOCALE" = some v := by
  unfold init_app at hinit
  split at hinit
  · exact absurd hinit (by simp)
  · rw [init_config_of_some _ _ h] at hinit
    split at hinit
    · exact absurd hinit (by simp)
    · cases hinit
      exact babel_step_preserves _ _ _ _ h (by assumption)

theorem force_unicode_ok (v r : PyVal) (h : force_unicode v = Except.ok r) :
    ∃ s, r = PyVal.str s := by
  cases v with
  | str s => exact ⟨s, by cases h; rfl⟩
  | bytes bs =>
    simp only [force_unicode] at h
    cases hd : utf8Decode bs with
    | none => rw [hd] at h; exact absurd h (by simp)
    | some s => rw [hd] at h; exact ⟨s, by cases h; rfl⟩
  | int n => exact absurd h (by simp [force_unicode])
  | pyNone => exact absurd h (by simp [force_unicode])


/-! ### Concrete instances used by witnesses and counterexamples -/

/-- Host app for C1: caller has not set `HUMANIZE_DEFAULT_LOCALE`, the babel
extension is active, and `BABEL_DEFAULT_LOCALE` is `"fr"`. -/
def appBabelFr : App :=
  { config := [("BABEL_DEFAULT_LOCALE", some "fr")]
    extensions := some [("babel", some 1)]
    template_filters := []
    before_request_funcs := 0 }

/-- Host app lacking the `extensions` attribute entirely. -/
def appNoRegistry : App :=
  { config := [], extensions := none
    template_filters := [], before_request_funcs := 0 }

/-- Host app with babel registered but no `BABEL_DEFAULT_LOCALE` config key. -/
def appBabelNoKey : App :=
  { config := [], extensions := some [("babel", some 1)]
    template_filters := [], before_request_funcs := 0 }

/-- Host app whose caller explicitly set `HUMANIZE_DEFAULT_LOCALE` to
`"de"`. -/
def appUserDe : App :=
  { config := [("HUMANIZE_DEFAULT_LOCALE", some "de")]
    extensions := some []
    template_filters := [], before_request_funcs := 0 }

/-- Library exposing only `naturalsize`, whose call always raises. -/
def libRaises : HumanizeLib := fun n =>
  if n = "naturalsize" then
    some (fun _ _ => Except.error PyError.attributeError)
  else none

/-- Library exposing only `naturaldelta`, returning the byte string
`b"hi"`. -/
def libBytes : HumanizeLib := fun n =>
  if n = "naturaldelta" then
    some (fun _ _ => Except.ok (PyVal.bytes [104, 105]))
  else none

/-- Library exposing only `intcomma`, returning the integer `7` (a value
that is neither text nor bytes). -/
def libInt : HumanizeLib := fun n =>
  if n = "intcomma" then some (fun _ _ => Except.ok (PyVal.int 7)) else none

/-! ### Claims -/

/-- C1: the claim says that with `HUMANIZE_DEFAULT_LOCALE` unset by the
caller, babel active and `BABEL_DEFAULT_LOCALE = "fr"`, `init_app` leaves
`HUMANIZE_DEFAULT_LOCALE = "fr"`.  The code disagrees: the `setdefault`
loop of lines 76-77 has already written `"en"` under that key before the
babel branch runs, so the `setdefault` of line 82 is a no-op and the value
stays `"en"` — contradicting the comment at source lines 42-44 and the
spec.  This theorem evaluates the code at the failing input. -/
theorem C1_babel_default_locale_ignored :
    (init_app 0 appBabelFr).map
      (fun a => lookup a.config "HUMANIZE_DEFAULT_LOCALE") =
    Except.ok (some (some "en")) := rfl

/-- C2: per-request locale resolution (`__set_locale`, lines 114-122).
With no selector registered the configured default locale is activated;
with a selector, its non-`None` return value is activated, and a `None`
return falls back to the configured default.  The value of
`Humanize.set_locale` is the locale handed to `humanize.i18n.activate`. -/
theorem C2_set_locale_resolution (h : Humanize) (cfg : Config) :
    (h.locale_selector_func = none →
      Humanize.set_locale h cfg = Humanize.default_locale cfg) ∧
    (∀ f s, h.locale_selector_func = some f → f () = some s →
      Humanize.set_locale h cfg = Except.ok (some s)) ∧
    (∀ f, h.locale_selector_func = some f → f () = none →
      Humanize.set_locale h cfg = Humanize.default_locale cfg) := by
  refine ⟨?_, ?_, ?_⟩
  · intro hn
    simp [Humanize.set_locale, hn]
  · intro f s hf hs
    simp [Humanize.set_locale, hf, hs]
  · intro f hf hs
    simp [Humanize.set_locale, hf, hs]

/-- Witness for C2: a registered selector returning `"fr_FR"` makes
`"fr_FR"` the activated locale. -/
theorem C2_set_locale_resolution_witness :
    Humanize.set_locale ⟨some (fun _ => some "fr_FR")⟩
      [("HUMANIZE_DEFAULT_LOCALE", some "en")] = Except.ok (some "fr_FR") :=
  (C2_set_locale_resolution ⟨some (fun _ => some "fr_FR")⟩
    [("HUMANIZE_DEFAULT_LOCALE", some "en")]).2.1 _ "fr_FR" rfl rfl

/-- C3: for every value and every function name absent from the external
library, the filter raises the `Exception` of line 128 carrying the
unknown name, and never returns a value. -/
theorem C3_unknown_function_raises (lib : HumanizeLib) (value : PyVal)
    (fname : String) (kwargs : List (String × PyVal))
    (h : lib fname = none) :
    Humanize.humanize_filter lib value fname kwargs =
      Except.error (PyError.exception fname) ∧
    ∀ r, Humanize.humanize_filter lib value fname kwargs ≠ Except.ok r := by
  constructor
  · simp [Humanize.humanize_filter, h]
  · intro r
    simp [Humanize.humanize_filter, h]

/-- Witness for C3: `not_a_real_function` is absent from `libRaises`. -/
theorem C3_unknown_function_raises_witness :
    Humanize.humanize_filter libRaises (PyVal.int 3) "not_a_real_function" [] =
      Except.error (PyError.exception "not_a_real_function") ∧
    ∀ r, Humanize.humanize_filter libRaises (PyVal.int 3)
      "not_a_real_function" [] ≠ Except.ok r :=
  C3_unknown_function_raises libRaises (PyVal.int 3) "not_a_real_function" []
    rfl


theorem humanize_filter_of_some (lib : HumanizeLib) (fname : String)
    (f : HFun) (value : PyVal) (kwargs : List (String × PyVal))
    (hf : lib fname = some f) :
    Humanize.humanize_filter lib value fname kwargs =
      match (if kwargs.isEmpty then f value [] else f value kwargs) with
      | Except.error _ => Except.error (PyError.valueError fname)
      | Except.ok result => force_unicode result := by
  unfold Humanize.humanize_filter
  rw [hf]

/-- C4: when the name resolves but the call raises any exception `e`, the
filter raises the `ValueError` of line 135 carrying the function name; the
conclusion does not depend on `e`, so the original exception is discarded
and does not escape. -/
theorem C4_call_failure_wrapped (lib : HumanizeLib) (fname : String)
    (f : HFun) (value : PyVal) (kwargs : List (String × PyVal)) (e : PyError)
    (hf : lib fname = some f)
    (he : (if kwargs.isEmpty then f value [] else f value kwargs) =
      Except.error e) :
    Humanize.humanize_filter lib value fname kwargs =
      Except.error (PyError.valueError fname) := by
  rw [humanize_filter_of_some lib fname f value kwargs hf, he]

/-- Witness for C4: `naturalsize` exists in `libRaises` but its call
raises, so the filter raises `ValueError` carrying `naturalsize`. -/
theorem C4_call_failure_wrapped_witness :
    Humanize.humanize_filter libRaises (PyVal.str "x") "naturalsize" [] =
      Except.error (PyError.valueError "naturalsize") :=
  C4_call_failure_wrapped libRaises "naturalsize" _ (PyVal.str "x") []
    PyError.attributeError rfl rfl

/-- C5: the filter only ever returns text.  Any successful result is a
text string; a text result of the underlying function is returned
unchanged; a byte-string result is decoded as UTF-8. -/
theorem C5_returns_text (lib : HumanizeLib) (fname : String) (f : HFun)
    (value : PyVal) (kwargs : List (String × PyVal))
    (hf : lib fname = some f) :
    (∀ r, Humanize.humanize_filter lib value fname kwargs = Except.ok r →
      ∃ s, r = PyVal.str s) ∧
    (∀ s, (if kwargs.isEmpty then f value [] else f value kwargs) =
        Except.ok (PyVal.str s) →
      Humanize.humanize_filter lib value fname kwargs =
        Except.ok (PyVal.str s)) ∧
    (∀ bs s, (if kwargs.isEmpty then f value [] else f value kwargs) =
        Except.ok (PyVal.bytes bs) → utf8Decode bs = some s →
      Humanize.humanize_filter lib value fname kwargs =
        Except.ok (PyVal.str s)) := by
  refine ⟨?_, ?_, ?_⟩
  · intro r hr
    rw [humanize_filter_of_some lib fname f value kwargs hf] at hr
    cases hc : (if kwargs.isEmpty then f value [] else f value kwargs) with
    | error e =>
      rw [hc] at hr
      simp at hr
    | ok w =>
      rw [hc] at hr
      exact force_unicode_ok w r hr
  · intro s hs
    rw [humanize_filter_of_some lib fname f value kwargs hf, hs]
    rfl
  · intro bs s hbs hdec
    rw [humanize_filter_of_some lib fname f value kwargs hf, hbs]
    show force_unicode (PyVal.bytes bs) = Except.ok (PyVal.str s)
    simp [force_unicode, hdec]

/-- Witness for C5: `naturaldelta` in `libBytes` returns the byte string
`b"hi"`, and the filter returns the decoded text `"hi"`. -/
theorem C5_returns_text_witness :
    Humanize.humanize_filter libBytes (PyVal.int 3600) "naturaldelta" [] =
      Except.ok (PyVal.str "hi") :=
  (C5_returns_text libBytes "naturaldelta" _ (PyVal.int 3600) [] rfl).2.2
    [104, 105] "hi" rfl (by decide)

theorem init_app_ext_some (ref : Nat) (app : App) (exts : Registry)
    (hext : app.extensions = some exts) :
    init_app ref app =
      match babel_step exts (init_config app.config) with
      | Except.error e => Except.error e
      | Except.ok cfg2 =>
        Except.ok
          { config := cfg2
            template_filters := app.template_filters ++ ["humanize"]
            before_request_funcs := app.before_request_funcs + 1
            extensions := some (dictSet exts "humanize" (some ref)) } := by
  unfold init_app
  rw [hext]

/-- C6: a `HUMANIZE_DEFAULT_LOCALE` already present in the host config is
never overwritten by any number of runs of the registration operation:
defaults are written by `setdefault` only, for keys not already present. -/
theorem C6_user_locale_preserved (ref : Nat) (app : App) (v : Option String)
    (h : lookup app.config "HUMANIZE_DEFAULT_LOCALE" = some v) :
    ∀ (n : Nat) (app' : App), init_app_n n ref app = Except.ok app' →
      lookup app'.config "HUMANIZE_DEFAULT_LOCALE" = some v := by
  intro n
  induction n generalizing app h with
  | zero =>
    intro app' happ
    cases happ
    exact h
  | succ m ih =>
    intro app' happ
    unfold init_app_n at happ
    cases hstep : init_app ref app with
    | error e =>
      rw [hstep] at happ
      simp at happ
    | ok app1 =>
      rw [hstep] at happ
      exact ih app1 (init_app_preserves_default_locale ref app app1 v h hstep)
        app' happ

/-- Witness for C6: a caller-set value `"de"` survives two registrations. -/
theorem C6_user_locale_preserved_witness :
    ∃ app' : App, init_app_n 2 0 appUserDe = Except.ok app' ∧
      lookup app'.config "HUMANIZE_DEFAULT_LOCALE" = some (some "de") :=
  ⟨_, rfl, C6_user_locale_preserved 0 appUserDe (some "de") rfl 2 _ rfl⟩

/-- C7: `localeselector` returns the registered callable unchanged and
stores it as the selector, regardless of (hence replacing) whatever
selector was stored before. -/
theorem C7_localeselector_stores_and_returns (h : Humanize)
    (f : Unit → Option String) :
    (Humanize.localeselector h f).2 = f ∧
    (Humanize.localeselector h f).1.locale_selector_func = some f :=
  ⟨rfl, rfl⟩

/-- C8: the claim says registration succeeds on a host with no extension
registry (lines 87-88 create one).  The code disagrees: `app_has_babel`
(line 32) dereferences `app.extensions` at line 79, before the `hasattr`
guard of line 87, so on such a host `init_app` raises `AttributeError` and
the creation branch is unreachable.  This theorem evaluates the code at
the failing input. -/
theorem C8_no_registry_registration_fails :
    init_app 0 appNoRegistry = Except.error PyError.attributeError := rfl

/-- C9: with a non-`None` `babel` entry in the extension registry and no
`BABEL_DEFAULT_LOCALE` key in the config at all, registration fails with a
`KeyError` for that key: line 80 reads it by direct lookup, so only a
present-but-`None` value is tolerated. -/
theorem C9_missing_babel_key_raises (ref : Nat) (app : App)
    (exts : Registry) (b : Nat)
    (hext : app.extensions = some exts)
    (hbab : dictGet exts "babel" = some b)
    (hmiss : lookup app.config "BABEL_DEFAULT_LOCALE" = none) :
    init_app ref app = Except.error (PyError.keyError "BABEL_DEFAULT_LOCALE") := by
  have hmiss1 : lookup (init_config app.config) "BABEL_DEFAULT_LOCALE" = none := by
    simp only [init_config, default_config, List.foldl, self_name_default_locale]
    rw [lookup_setdefault_ne _ _ _ _ (by decide)]
    exact hmiss
  have hb : babel_step exts (init_config app.config) =
      Except.error (PyError.keyError "BABEL_DEFAULT_LOCALE") := by
    unfold babel_step
    rw [hbab]
    simp only [Option.isSome_some, if_true]
    rw [hmiss1]
  rw [init_app_ext_some ref app exts hext, hb]

/-- Witness for C9: babel registered, config entirely empty. -/
theorem C9_missing_babel_key_raises_witness :
    init_app 0 appBabelNoKey =
      Except.error (PyError.keyError "BABEL_DEFAULT_LOCALE") :=
  C9_missing_babel_key_raises 0 appBabelNoKey [("babel", some 1)] 1 rfl rfl rfl

/-- C10: when the resolved function succeeds but returns a value that is
neither text nor bytes, `force_unicode` — running outside the try of
lines 132-137 — raises `AttributeError`, which is neither the
`Exception`-with-name of line 128 nor the `ValueError` of line 135. -/
theorem C10_nontext_result_unwrapped (lib : HumanizeLib) (fname : String)
    (f : HFun) (value r : PyVal) (kwargs : List (String × PyVal))
    (hf : lib fname = some f)
    (hr : (if kwargs.isEmpty then f value [] else f value kwargs) =
      Except.ok r)
    (hs : ∀ s, r ≠ PyVal.str s)
    (hb : ∀ bs, r ≠ PyVal.bytes bs) :
    Humanize.humanize_filter lib value fname kwargs =
      Except.error PyError.attributeError ∧
    (∀ g, PyError.attributeError ≠ PyError.exception g) ∧
    (∀ g, PyError.attributeError ≠ PyError.valueError g) := by
  refine ⟨?_, ?_, ?_⟩
  · rw [humanize_filter_of_some lib fname f value kwargs hf, hr]
    show force_unicode r = Except.error PyError.attributeError
    cases r with
    | str s => exact absurd rfl (hs s)
    | bytes bs => exact absurd rfl (hb bs)
    | int n => rfl
    | pyNone => rfl
  · intro g hg
    cases hg
  · intro g hg
    cases hg

/-- Witness for C10: `intcomma` in `libInt` returns the integer `7`; the
filter fails with the unwrapped `AttributeError`. -/
theorem C10_nontext_result_unwrapped_witness :
    Humanize.humanize_filter libInt PyVal.pyNone "intcomma" [] =
      Except.error PyError.attributeError ∧
    (∀ g, PyError.attributeError ≠ PyError.exception g) ∧
    (∀ g, PyError.attributeError ≠ PyError.valueError g) :=
  C10_nontext_result_unwrapped libInt "intcomma" _ PyVal.pyNone (PyVal.int 7)
    [] rfl rfl (fun s hh => by cases hh) (fun bs hh => by cases hh)
